import Mathlib

/-!
# Verification of the imgproxy-tigris sidecar proxy

A shallow embedding of the Go reverse-proxy that forwards requests to an
imgproxy backend and opportunistically persists status-200 response bodies
to an S3-compatible object store.

The repository contains several variants of `main.go`:
* a buffer-then-serve variant (`main.go`, first file): `ModifyResponse`
  reads the whole body with `io.ReadAll`, spawns the upload goroutine with a
  fresh reader over the cached bytes, and installs another fresh reader as
  the client-facing body; its `generateS3Key` uses the suffix policy
  (drop the first path segment, reject paths with fewer than 3 segments);
* tee variants (`main.go` second file, `part_000` both files):
  `ModifyResponse` installs `io.TeeReader(resp.Body, &buf)` as the body and
  immediately spawns a goroutine uploading from `&buf`; their
  `generateS3Key` hashes the whole path, and `uploadToS3` prepends the
  configured `S3Folder` to the key; the last variant adds `waitForHealth`.

Bytes are `Nat` (< 256), 32-bit machine words are `Nat` reduced `% 2^32`.
-/

/-! ## 32-bit arithmetic and MD5 (crypto/md5) -/

/-- 2^32, the modulus of 32-bit machine arithmetic. -/
def M32 : Nat := 4294967296

/-- 32-bit addition: Go `a + b` on `uint32`. -/
def add32 (a b : Nat) : Nat := (a + b) % M32

/-- 32-bit bitwise complement of a value `< 2^32`. -/
def not32 (a : Nat) : Nat := 4294967295 - a

/-- 32-bit left rotation by `s` bits (`0 < s < 32`), on a value `< 2^32`. -/
def rotl32 (x s : Nat) : Nat := (x * 2 ^ s) % M32 + x / 2 ^ (32 - s)

/-- The 64 MD5 sine-derived constants `K[i]` (RFC 1321). -/
def md5K : List Nat :=
  [0xd76aa478, 0xe8c7b756, 0x242070db, 0xc1bdceee,
   0xf57c0faf, 0x4787c62a, 0xa8304613, 0xfd469501,
   0x698098d8, 0x8b44f7af, 0xffff5bb1, 0x895cd7be,
   0x6b901122, 0xfd987193, 0xa679438e, 0x49b40821,
   0xf61e2562, 0xc040b340, 0x265e5a51, 0xe9b6c7aa,
   0xd62f105d, 0x02441453, 0xd8a1e681, 0xe7d3fbc8,
   0x21e1cde6, 0xc33707d6, 0xf4d50d87, 0x455a14ed,
   0xa9e3e905, 0xfcefa3f8, 0x676f02d9, 0x8d2a4c8a,
   0xfffa3942, 0x8771f681, 0x6d9d6122, 0xfde5380c,
   0xa4beea44, 0x4bdecfa9, 0xf6bb4b60, 0xbebfbc70,
   0x289b7ec6, 0xeaa127fa, 0xd4ef3085, 0x04881d05,
   0xd9d4d039, 0xe6db99e5, 0x1fa27cf8, 0xc4ac5665,
   0xf4292244, 0x432aff97, 0xab9423a7, 0xfc93a039,
   0x655b59c3, 0x8f0ccc92, 0xffeff47d, 0x85845dd1,
   0x6fa87e4f, 0xfe2ce6e0, 0xa3014314, 0x4e0811a1,
   0xf7537e82, 0xbd3af235, 0x2ad7d2bb, 0xeb86d391]

/-- The 64 MD5 per-round left-rotation amounts `s[i]`. -/
def md5S : List Nat :=
  [7, 12, 17, 22, 7, 12, 17, 22, 7, 12, 17, 22, 7, 12, 17, 22,
   5, 9, 14, 20, 5, 9, 14, 20, 5, 9, 14, 20, 5, 9, 14, 20,
   4, 11, 16, 23, 4, 11, 16, 23, 4, 11, 16, 23, 4, 11, 16, 23,
   6, 10, 15, 21, 6, 10, 15, 21, 6, 10, 15, 21, 6, 10, 15, 21]

/-- The MD5 nonlinear function of round `i` applied to `(b, c, d)`. -/
def md5F (i b c d : Nat) : Nat :=
  if i < 16 then (b &&& c) ||| (not32 b &&& d)
  else if i < 32 then (d &&& b) ||| (not32 d &&& c)
  else if i < 48 then b ^^^ c ^^^ d
  else c ^^^ (b ||| not32 d)

/-- The message-word index used in MD5 round `i`. -/
def md5G (i : Nat) : Nat :=
  if i < 16 then i
  else if i < 32 then (5 * i + 1) % 16
  else if i < 48 then (3 * i + 5) % 16
  else (7 * i) % 16

/-- The running MD5 state `(A, B, C, D)` of four 32-bit words. -/
structure MD5State where
  a : Nat
  b : Nat
  c : Nat
  d : Nat
deriving DecidableEq, Repr

/-- The MD5 initial state (RFC 1321 §3.3). -/
def md5Init : MD5State := ⟨0x67452301, 0xefcdab89, 0x98badcfe, 0x10325476⟩

/-- One of the 64 MD5 operations, on the 16 message words `m` of a block. -/
def md5Round (m : List Nat) (st : MD5State) (i : Nat) : MD5State :=
  let f := add32 (add32 (add32 st.a (md5F i st.b st.c st.d)) (md5K.getD i 0))
    (m.getD (md5G i) 0)
  ⟨st.d, add32 st.b (rotl32 f (md5S.getD i 0)), st.b, st.c⟩

/-- Little-endian rendering of `n` on `k` bytes. -/
def leBytes (k n : Nat) : List Nat :=
  match k with
  | 0 => []
  | k + 1 => n % 256 :: leBytes k (n / 256)

/-- Little-endian decoding of a byte list into one machine word. -/
def leWord (bs : List Nat) : Nat :=
  match bs with
  | [] => 0
  | b :: rest => b + 256 * leWord rest

/-- The sixteen 32-bit message words of one 64-byte block. -/
def blockWords (block : List Nat) : List Nat :=
  (List.range 16).map fun i => leWord ((block.drop (4 * i)).take 4)

/-- Process one 64-byte block: 64 rounds, then add to the incoming state. -/
def md5Block (st : MD5State) (block : List Nat) : MD5State :=
  let m := blockWords block
  let e := (List.range 64).foldl (md5Round m) st
  ⟨add32 st.a e.a, add32 st.b e.b, add32 st.c e.c, add32 st.d e.d⟩

/-- MD5 padding: `0x80`, zeros to 56 mod 64, then the 64-bit bit length. -/
def md5Pad (msg : List Nat) : List Nat :=
  let z := (120 - (msg.length + 1) % 64) % 64
  msg ++ 128 :: List.replicate z 0 ++ leBytes 8 ((8 * msg.length) % 2 ^ 64)

/-- `md5.Sum`: the 16-byte MD5 digest of a byte sequence. -/
def md5Sum (msg : List Nat) : List Nat :=
  let p := md5Pad msg
  let st := (List.range (p.length / 64)).foldl
    (fun st i => md5Block st ((p.drop (64 * i)).take 64)) md5Init
  leBytes 4 st.a ++ leBytes 4 st.b ++ leBytes 4 st.c ++ leBytes 4 st.d

/-! ## Go string primitives used by the proxy -/

/-- Lowercase hex digit of a value `< 16` (as produced by `encoding/hex`). -/
def hexDigit (n : Nat) : Char :=
  if n < 10 then Char.ofNat (48 + n) else Char.ofNat (87 + n)

/-- `hex.EncodeToString`: two lowercase hex characters per byte. -/
def hexEncode (bs : List Nat) : List Char :=
  bs.flatMap fun b => [hexDigit (b / 16), hexDigit (b % 16)]

/-- UTF-8 encoding of one character, as Go's `[]byte(string)` produces. -/
def utf8Char (c : Char) : List Nat :=
  let n := c.toNat
  if n < 128 then [n]
  else if n < 2048 then [192 ||| n >>> 6, 128 ||| (n &&& 63)]
  else if n < 65536 then
    [224 ||| n >>> 12, 128 ||| (n >>> 6 &&& 63), 128 ||| (n &&& 63)]
  else
    [240 ||| n >>> 18, 128 ||| (n >>> 12 &&& 63), 128 ||| (n >>> 6 &&& 63),
     128 ||| (n &&& 63)]

/-- The UTF-8 bytes of a string, Go's `[]byte(s)`. -/
def utf8Bytes (s : List Char) : List Nat := s.flatMap utf8Char

/-- Accumulator form of `strings.Split(s, "/")` on one separator character. -/
def splitChAux (sep : Char) : List Char → List Char → List (List Char)
  | [], acc => [acc.reverse]
  | c :: rest, acc =>
    if c = sep then acc.reverse :: splitChAux sep rest []
    else splitChAux sep rest (c :: acc)

/-- `strings.Split(s, sep)` for a one-character separator. -/
def splitCh (sep : Char) (s : List Char) : List (List Char) :=
  splitChAux sep s []

/-- `strings.Join(parts, sep)` for a one-character separator. -/
def joinCh (sep : Char) : List (List Char) → List Char
  | [] => []
  | [p] => p
  | p :: rest => p ++ sep :: joinCh sep rest

/-- `strings.TrimPrefix(path, "/")`: drop one leading slash if present. -/
def trimLeadSlash (s : List Char) : List Char :=
  match s with
  | '/' :: rest => rest
  | _ => s

/-! ## Decidable equality for `Except` results -/

instance instDecEqExcept {α β : Type} [DecidableEq α] [DecidableEq β] :
    DecidableEq (Except α β) := fun x y =>
  match x, y with
  | .error a, .error b =>
    if h : a = b then .isTrue (by subst h; rfl)
    else .isFalse (by intro he; injection he; contradiction)
  | .error _, .ok _ => .isFalse (by intro he; injection he)
  | .ok _, .error _ => .isFalse (by intro he; injection he)
  | .ok a, .ok b =>
    if h : a = b then .isTrue (by subst h; rfl)
    else .isFalse (by intro he; injection he; contradiction)

/-! ## Shared data model

A `Response` is the Response Descriptor as the interception hook sees it:
status, headers, and the body stream.  Reading the stream (`io.ReadAll`)
either fails with an error or yields the byte sequence, so the buffered
variant's view of the body is an `Except`.  A `PutCall` records one
`PutObject`/`Upload` call issued to the object-store client. -/

structure Response where
  status : Nat
  headers : List (List Char × List Char)
  body : Except (List Char) (List Nat)
deriving DecidableEq

structure PutCall where
  bucket : List Char
  key : List Char
  body : List Nat
deriving DecidableEq

/-! ## Suffix-policy variant (first file of `main.go`)

`generateS3Key` splits the trimmed path on `/`, rejects paths with fewer
than 3 segments with the empty sentinel key, and hashes the rejoined
segments after the signature.  `uploadToS3` checks the sentinel before
issuing the put; the spawning goroutine only logs a failed upload.
`ModifyResponse` reads the whole body, returns a body-read error to the
proxy, spawns the upload goroutine over the cached bytes, and installs a
fresh reader over those bytes as the client-facing body. -/

namespace SuffixPolicy

/-- `generateS3Key` (main.go, first file, lines 97–110). -/
def generateS3Key (path : List Char) : List Char :=
  let parts := splitCh '/' (trimLeadSlash path)
  if parts.length < 3 then []
  else hexEncode (md5Sum (utf8Bytes (joinCh '/' parts.tail)))

/-- `uploadToS3` (main.go, first file, lines 112–127).  `putErr` is the
object-store client's response to the put (`none` = success).  Returns the
put calls issued and the function's error result. -/
def uploadToS3 (putErr : Option (List Char)) (bucket : List Char)
    (body : List Nat) (path : List Char) :
    List PutCall × Except (List Char) Unit :=
  let key := generateS3Key path
  if key = [] then ([], .error "invalid URL path format".data)
  else ([⟨bucket, key, body⟩],
    match putErr with
    | some e => .error e
    | none => .ok ())

/-- The goroutine body spawned by `ModifyResponse` (main.go lines 68–73):
run `uploadToS3` and log `"S3 upload failed"` on error.  Returns the put
calls issued and the log lines emitted; nothing else escapes the task. -/
def uploadGoroutine (putErr : Option (List Char)) (bucket : List Char)
    (body : List Nat) (path : List Char) :
    List PutCall × List (List Char) :=
  match uploadToS3 putErr bucket body path with
  | (puts, .error _) => (puts, ["S3 upload failed".data])
  | (puts, .ok ()) => (puts, [])

/-- `proxy.ModifyResponse` (main.go, first file, lines 56–79).  Returns the
hook's result: either the body-read error, or the updated descriptor
together with the upload tasks spawned (capture-buffer bytes and path). -/
def modifyResponse (resp : Response) (path : List Char) :
    Except (List Char) (Response × List (List Nat × List Char)) :=
  if resp.status = 200 then
    match resp.body with
    | .error e => .error e
    | .ok bytes => .ok ({resp with body := .ok bytes}, [(bytes, path)])
  else .ok (resp, [])

/-- The whole per-response pipeline: the hook plus the spawned goroutines,
each run against an object store whose put outcome is `putErr`.  The first
component is everything the client-facing path observes; the second is the
detached tasks' outputs (their puts and log lines). -/
def handleResponse (putErr : Option (List Char)) (bucket : List Char)
    (resp : Response) (path : List Char) :
    Except (List Char) (Response × List (List Nat × List Char)) ×
      List (List PutCall × List (List Char)) :=
  match modifyResponse resp path with
  | .error e => (.error e, [])
  | .ok (r, spawns) =>
    (.ok (r, spawns), spawns.map fun s => uploadGoroutine putErr bucket s.1 s.2)

end SuffixPolicy

/-! ## Whole-path variants (`main.go` second file, `part_000` both files)

`generateS3Key` hashes the entire path; `uploadToS3` prepends the
configured `S3Folder` to the key (`fmt.Sprintf("%s%s", cfg.S3Folder, key)`). -/

namespace WholePolicy

/-- `generateS3Key` (part_000, lines 100–104 and 260–264). -/
def generateS3Key (path : List Char) : List Char :=
  hexEncode (md5Sum (utf8Bytes path))

/-- `uploadToS3` (part_000 second file, lines 242–258): put at
`folder ++ key`, log and return the error on failure, log success. -/
def uploadToS3 (putErr : Option (List Char)) (bucket folder : List Char)
    (body : List Nat) (path : List Char) :
    List PutCall × Except (List Char) Unit :=
  let key := generateS3Key path
  ([⟨bucket, folder ++ key, body⟩],
    match putErr with
    | some e => .error e
    | none => .ok ())

end WholePolicy

/-! ## Tee-variant interception (part_000 lines 217–231, main.go 211–225)

`ModifyResponse` builds `teeReader := io.TeeReader(resp.Body, &buf)`,
immediately spawns `go uploadToS3(..., &buf, ...)`, and installs the tee
as the client-facing body.  The client-delivery path and the upload
goroutine then run concurrently:

* a client read takes the next backend byte, appends it to the capture
  buffer `buf` (the tee target) and delivers it to the client; on an
  exhausted source the client side observes end-of-stream;
* an upload read takes the next byte out of `buf` (`bytes.Buffer.Read`
  consumes); on an *empty* buffer `bytes.Buffer.Read` returns `io.EOF`,
  which the uploader takes as end of the body: it stops reading and
  performs the put with whatever it has accumulated (`uploadDone`).

A schedule is an arbitrary interleaving of these two atomic actions; the
code contains no synchronisation between them. -/

structure TeeState where
  src : List Nat
  buf : List Nat
  client : List Nat
  uploaded : List Nat
  clientDone : Bool
  uploadDone : Bool
deriving DecidableEq

/-- The two concurrent atomic actions of the tee pipeline. -/
inductive TeeAct
  | clientRead
  | uploadRead
deriving DecidableEq

/-- The pipeline state right after `ModifyResponse` returns: the backend
body is unread, the capture buffer empty, the upload goroutine running. -/
def teeInit (body : List Nat) : TeeState :=
  ⟨body, [], [], [], false, false⟩

/-- One atomic action of the tee pipeline. -/
def teeStep (s : TeeState) (a : TeeAct) : TeeState :=
  match a with
  | .clientRead =>
    match s.src with
    | [] => { s with clientDone := true }
    | b :: rest =>
      { s with src := rest, buf := s.buf ++ [b], client := s.client ++ [b] }
  | .uploadRead =>
    if s.uploadDone then s
    else
      match s.buf with
      | [] => { s with uploadDone := true }
      | b :: rest => { s with buf := rest, uploaded := s.uploaded ++ [b] }

/-- Run the tee pipeline on a backend body under a given schedule. -/
def teeRun (body : List Nat) (sched : List TeeAct) : TeeState :=
  sched.foldl teeStep (teeInit body)

/-- The tee-variant response descriptor: the hook never reads the stream,
so the body is just the backend's byte sequence. -/
structure TeeResponse where
  status : Nat
  headers : List (List Char × List Char)
  body : List Nat
deriving DecidableEq

/-- The tee-variant `ModifyResponse` hook: on status 200 it installs the
tee'd reader and spawns the upload goroutine (returning the initial
pipeline state); on any other status it does nothing. -/
def modifyResponseTee (resp : TeeResponse) : TeeResponse × Option TeeState :=
  if resp.status = 200 then (resp, some (teeInit resp.body)) else (resp, none)

/-! ## Startup readiness gate (part_000 second file, lines 151–167, 208–213)

`waitForHealth` polls `GET <target>/health` every 500ms until a poll
returns status 200 or the timeout elapses.  Time is discretised at the
500ms sleep: poll `i` happens at `500·i` ms, so the window of duration
`timeoutMs` admits `⌈timeoutMs / 500⌉` polls.  `polls i = none` models a
transport error of poll `i`, `some c` a response with status `c`.  `main`
calls `waitForHealth` before `ListenAndServe` and exits with status 1 on
error. -/

/-- The URL polled: `fmt.Sprintf("%s/health", target)`. -/
def healthURL (target : List Char) : List Char := target ++ "/health".data

/-- The polling loop of `waitForHealth`, by remaining polls. -/
def healthLoop (polls : Nat → Option Nat) : Nat → Nat → Except (List Char) Unit
  | _, 0 => .error "health check failed".data
  | i, fuel + 1 =>
    if polls i = some 200 then .ok ()
    else healthLoop polls (i + 1) fuel

/-- Number of loop iterations that start before `timeoutMs` elapses, one
poll every 500ms starting at 0. -/
def numPolls (timeoutMs : Nat) : Nat := (timeoutMs + 499) / 500

/-- `waitForHealth(target, timeout)` as a function of the backend's poll
responses. -/
def waitForHealth (polls : Nat → Option Nat) (timeoutMs : Nat) :
    Except (List Char) Unit :=
  healthLoop polls 0 (numPolls timeoutMs)

/-- `main`'s startup gate (part_000 lines 208–213): a `waitForHealth`
error is fatal, `os.Exit(1)`; otherwise startup proceeds to serving. -/
def mainStartup (polls : Nat → Option Nat) (timeoutMs : Nat) :
    Except Nat Unit :=
  match waitForHealth polls timeoutMs with
  | .error _ => .error 1
  | .ok () => .ok ()

set_option maxRecDepth 100000

/-! ## Helper lemmas -/

theorem leBytes_length (k n : Nat) : (leBytes k n).length = k := by
  induction k generalizing n with
  | zero => rfl
  | succ k ih => simp [leBytes, ih]

theorem hexEncode_length (bs : List Nat) :
    (hexEncode bs).length = 2 * bs.length := by
  induction bs with
  | nil => rfl
  | cons b rest ih =>
    simp [hexEncode] at ih ⊢
    omega

theorem md5Sum_length (msg : List Nat) : (md5Sum msg).length = 16 := by
  unfold md5Sum
  simp [leBytes_length]

theorem md5_hex_ne_nil (msg : List Nat) : hexEncode (md5Sum msg) ≠ [] := by
  intro h
  have := hexEncode_length (md5Sum msg)
  rw [h, md5Sum_length] at this
  simp at this

theorem splitChAux_append_sep (sep : Char) (s R : List Char) :
    ∀ acc, sep ∉ s →
      splitChAux sep (s ++ sep :: R) acc =
        (acc.reverse ++ s) :: splitChAux sep R [] := by
  induction s with
  | nil => intro acc _; simp [splitChAux]
  | cons c cs ih =>
    intro acc h
    have hc : ¬ c = sep := fun he => h (he ▸ List.mem_cons_self c cs)
    have hcs : sep ∉ cs := fun hm => h (List.mem_cons_of_mem c hm)
    simp only [List.cons_append, splitChAux, if_neg hc]
    rw [show cs.append (sep :: R) = cs ++ sep :: R from rfl, ih (c :: acc) hcs]
    simp

theorem splitCh_append_sep (sep : Char) (s R : List Char) (h : sep ∉ s) :
    splitCh sep (s ++ sep :: R) = s :: splitCh sep R := by
  unfold splitCh
  rw [splitChAux_append_sep sep s R [] h]
  simp

theorem teeStep_capture_invariant (s : TeeState) (a : TeeAct)
    (h : s.uploaded ++ s.buf = s.client) :
    (teeStep s a).uploaded ++ (teeStep s a).buf = (teeStep s a).client := by
  cases a with
  | clientRead =>
    cases hs : s.src with
    | nil => simpa [teeStep, hs] using h
    | cons b rest => simp [teeStep, hs, ← List.append_assoc, h]
  | uploadRead =>
    by_cases hd : s.uploadDone
    · simpa [teeStep, hd] using h
    · cases hb : s.buf with
      | nil => simp only [teeStep, if_neg hd, hb]; simpa [hb] using h
      | cons b rest =>
        simp only [teeStep, if_neg hd, hb]
        rw [← h, hb]
        simp

theorem teeRun_capture_invariant (body : List Nat) (sched : List TeeAct) :
    (teeRun body sched).uploaded ++ (teeRun body sched).buf =
      (teeRun body sched).client := by
  suffices hgen : ∀ s : TeeState, s.uploaded ++ s.buf = s.client →
      (sched.foldl teeStep s).uploaded ++ (sched.foldl teeStep s).buf =
        (sched.foldl teeStep s).client by
    exact hgen (teeInit body) rfl
  induction sched with
  | nil => intro s h; exact h
  | cons a rest ih =>
    intro s h
    exact ih (teeStep s a) (teeStep_capture_invariant s a h)

theorem healthLoop_ok_iff (polls : Nat → Option Nat) :
    ∀ fuel i, healthLoop polls i fuel = .ok () ↔
      ∃ k < fuel, polls (i + k) = some 200 := by
  intro fuel
  induction fuel with
  | zero =>
    intro i
    constructor
    · intro h; exact absurd h (by simp [healthLoop])
    · rintro ⟨k, hk, _⟩; omega
  | succ n ih =>
    intro i
    constructor
    · intro hok
      unfold healthLoop at hok
      by_cases h : polls i = some 200
      · exact ⟨0, Nat.succ_pos n, by simpa using h⟩
      · rw [if_neg h] at hok
        obtain ⟨k, hk, hp⟩ := (ih (i + 1)).mp hok
        exact ⟨k + 1, by omega, by rw [show i + (k + 1) = i + 1 + k by omega]; exact hp⟩
    · rintro ⟨k, hk, hp⟩
      unfold healthLoop
      by_cases h : polls i = some 200
      · rw [if_pos h]
      · rw [if_neg h]
        apply (ih (i + 1)).mpr
        cases k with
        | zero => rw [Nat.add_zero] at hp; exact absurd hp h
        | succ k =>
          exact ⟨k, by omega, by rw [show i + 1 + k = i + (k + 1) by omega]; exact hp⟩

theorem healthLoop_ok_or_error (polls : Nat → Option Nat) :
    ∀ fuel i, healthLoop polls i fuel = .ok () ∨
      healthLoop polls i fuel = .error "health check failed".data := by
  intro fuel
  induction fuel with
  | zero => intro i; right; rfl
  | succ n ih =>
    intro i
    unfold healthLoop
    by_cases h : polls i = some 200
    · left; rw [if_pos h]
    · rw [if_neg h]; exact ih (i + 1)

/-! ## Claim theorems -/

/-- The example request path of the spec's end-to-end test property. -/
def examplePath : List Char :=
  "/sig123/resize:fill:300:300/plain/https://example.com/a.jpg".data

/-- C1: the claim says the upload task's read of the Capture Buffer is
ordered strictly after the client-delivery path has fully consumed the
body, never treating a partially filled buffer as complete.  The tee
variants violate this: the upload goroutine is spawned before any client
read, `bytes.Buffer.Read` on the still-empty buffer returns `io.EOF`, and
the uploader initiates its network write with an empty body.  Evaluated
here at body `[7]` under the schedule in which the upload goroutine runs
first: the upload completes (`uploadDone`) having read nothing, while the
client has consumed nothing and the backend still holds the whole body. -/
theorem tee_upload_completes_before_client_read :
    (teeRun [7] [.uploadRead]).uploadDone = true ∧
    (teeRun [7] [.uploadRead]).clientDone = false ∧
    (teeRun [7] [.uploadRead]).client = [] ∧
    (teeRun [7] [.uploadRead]).uploaded = [] ∧
    (teeRun [7] [.uploadRead]).src = [7] := by
  decide

/-- C2: the claim says the bytes delivered to the client equal
byte-for-byte the bytes the upload task receives for its blob-put.  In
the tee variants this fails: with backend body `[1, 2]` and the schedule
client-read, upload-read, upload-read, client-read, client-read, the
uploader drains the one captured byte, then hits the empty buffer, takes
the `io.EOF` as end of body and puts `[1]`, while the client goes on to
receive `[1, 2]`. -/
theorem tee_upload_body_mismatch :
    (teeRun [1, 2] [.clientRead, .uploadRead, .uploadRead, .clientRead,
      .clientRead]).clientDone = true ∧
    (teeRun [1, 2] [.clientRead, .uploadRead, .uploadRead, .clientRead,
      .clientRead]).uploadDone = true ∧
    (teeRun [1, 2] [.clientRead, .uploadRead, .uploadRead, .clientRead,
      .clientRead]).client = [1, 2] ∧
    (teeRun [1, 2] [.clientRead, .uploadRead, .uploadRead, .clientRead,
      .clientRead]).uploaded = [1] ∧
    (teeRun [1, 2] [.clientRead, .uploadRead, .uploadRead, .clientRead,
      .clientRead]).uploaded ≠
      (teeRun [1, 2] [.clientRead, .uploadRead, .uploadRead, .clientRead,
        .clientRead]).client := by
  decide

/-- C3: a response whose status is not 200 passes through the
interception hook untouched — same status, headers and body stream — with
no capture buffer created, no upload task spawned, and zero put calls
issued, in the buffer-then-serve variant and in the tee variant alike. -/
theorem non200_passthrough (resp : Response) (respT : TeeResponse)
    (path bucket : List Char) (putErr : Option (List Char))
    (h : resp.status ≠ 200) (hT : respT.status ≠ 200) :
    SuffixPolicy.modifyResponse resp path = .ok (resp, []) ∧
    SuffixPolicy.handleResponse putErr bucket resp path = (.ok (resp, []), []) ∧
    modifyResponseTee respT = (respT, none) := by
  have hm : SuffixPolicy.modifyResponse resp path = .ok (resp, []) := by
    simp [SuffixPolicy.modifyResponse, h]
  refine ⟨hm, ?_, ?_⟩
  · simp [SuffixPolicy.handleResponse, hm]
  · simp [modifyResponseTee, hT]

theorem non200_passthrough_witness :
    SuffixPolicy.modifyResponse ⟨404, [], .ok [9]⟩ "/p/q/r".data =
      .ok (⟨404, [], .ok [9]⟩, []) ∧
    SuffixPolicy.handleResponse none "b".data ⟨404, [], .ok [9]⟩ "/p/q/r".data =
      (.ok (⟨404, [], .ok [9]⟩, []), []) ∧
    modifyResponseTee ⟨404, [], [9]⟩ = (⟨404, [], [9]⟩, none) :=
  non200_passthrough ⟨404, [], .ok [9]⟩ ⟨404, [], [9]⟩ "/p/q/r".data "b".data
    none (by decide) (by decide)

/-- C4: key derivation is deterministic and pure under either policy —
both `generateS3Key` variants are functions of the path string alone, so
two calls on equal inputs give equal outputs. -/
theorem generateS3Key_deterministic (p q : List Char) (h : p = q) :
    SuffixPolicy.generateS3Key p = SuffixPolicy.generateS3Key q ∧
    WholePolicy.generateS3Key p = WholePolicy.generateS3Key q := by
  subst h
  exact ⟨rfl, rfl⟩

theorem generateS3Key_deterministic_witness :
    SuffixPolicy.generateS3Key "/a/b/c".data =
      SuffixPolicy.generateS3Key "/a/b/c".data ∧
    WholePolicy.generateS3Key "/a/b/c".data =
      WholePolicy.generateS3Key "/a/b/c".data :=
  generateS3Key_deterministic "/a/b/c".data "/a/b/c".data rfl

/-- C5: under the suffix policy, a path with fewer than 3 `/`-delimited
segments after trimming the leading slash yields the empty sentinel key;
`uploadToS3` checks the sentinel and returns before any put call, so the
spawned goroutine issues zero puts and the error ends at its single
`"S3 upload failed"` log line, regardless of the object store's behavior. -/
theorem short_path_skips_upload (path bucket : List Char) (body : List Nat)
    (putErr : Option (List Char))
    (h : (splitCh '/' (trimLeadSlash path)).length < 3) :
    SuffixPolicy.generateS3Key path = [] ∧
    (SuffixPolicy.uploadToS3 putErr bucket body path).1 = [] ∧
    (SuffixPolicy.uploadToS3 putErr bucket body path).2 =
      .error "invalid URL path format".data ∧
    (SuffixPolicy.uploadGoroutine putErr bucket body path).1 = [] ∧
    (SuffixPolicy.uploadGoroutine putErr bucket body path).2 =
      ["S3 upload failed".data] := by
  have hk : SuffixPolicy.generateS3Key path = [] := by
    unfold SuffixPolicy.generateS3Key
    rw [if_pos h]
  refine ⟨hk, ?_, ?_, ?_, ?_⟩ <;>
    simp [SuffixPolicy.uploadGoroutine, SuffixPolicy.uploadToS3, hk]

theorem short_path_skips_upload_witness :
    SuffixPolicy.generateS3Key "/onlyonesegment".data = [] ∧
    (SuffixPolicy.uploadToS3 none "b".data [1] "/onlyonesegment".data).1 = [] ∧
    (SuffixPolicy.uploadToS3 none "b".data [1] "/onlyonesegment".data).2 =
      .error "invalid URL path format".data ∧
    (SuffixPolicy.uploadGoroutine none "b".data [1] "/onlyonesegment".data).1 =
      [] ∧
    (SuffixPolicy.uploadGoroutine none "b".data [1] "/onlyonesegment".data).2 =
      ["S3 upload failed".data] :=
  short_path_skips_upload "/onlyonesegment".data "b".data [1] none (by decide)

/-- C6, counterexample to the claim as stated: in the suffix-policy
variant, `uploadToS3` puts at the derived key itself (`Key:
aws.String(key)`) — its `Config` has no folder field, and no string is
concatenated in front of the key.  Concretely, for the spec's example
request the put call's key is the bare 32-character digest, which differs
from what the claim predicts under any nonempty configured folder prefix
such as `cache/`. -/
theorem suffix_put_key_unprefixed :
    (SuffixPolicy.uploadToS3 none "bucket".data [1, 2, 3] examplePath).1 =
      [⟨"bucket".data, "11f1674366cf8d7e5904e59c4aaac725".data, [1, 2, 3]⟩] ∧
    "11f1674366cf8d7e5904e59c4aaac725".data ≠
      "cache/".data ++ "11f1674366cf8d7e5904e59c4aaac725".data := by
  constructor
  · decide
  · decide

/-- C6, amended: under the suffix policy the derived key for the example
path `/sig123/resize:fill:300:300/plain/https://example.com/a.jpg` is
exactly the lowercase hex encoding of the 128-bit MD5 digest of
`resize:fill:300:300/plain/https://example.com/a.jpg` (the `/`-rejoin of
the segments after the first restores the source URL's slashes), and the
blob-put of the suffix-policy variant uses that derived key itself; the
folder-prefix concatenation exists only in the whole-path variants, whose
put key is `S3Folder ++ hex128(full path)`. -/
theorem suffix_example_key_hash :
    SuffixPolicy.generateS3Key examplePath =
      hexEncode (md5Sum (utf8Bytes
        "resize:fill:300:300/plain/https://example.com/a.jpg".data)) ∧
    SuffixPolicy.generateS3Key examplePath =
      "11f1674366cf8d7e5904e59c4aaac725".data ∧
    (SuffixPolicy.uploadToS3 none "bucket".data [1, 2, 3] examplePath).1 =
      [⟨"bucket".data, SuffixPolicy.generateS3Key examplePath, [1, 2, 3]⟩] ∧
    (∀ folder bucket : List Char, ∀ body : List Nat,
      (WholePolicy.uploadToS3 none bucket folder body examplePath).1 =
        [⟨bucket, folder ++ WholePolicy.generateS3Key examplePath, body⟩]) := by
  refine ⟨by decide, by decide, by decide, fun folder bucket body => rfl⟩

/-- C7: under the suffix policy the derived key does not depend on the
first path segment: for any two slash-free segments `s1`, `s2` and any
suffix `R` of at least two `/`-delimited segments, the keys of
`/s1/R` and `/s2/R` coincide (both hash the rejoined suffix `R`). -/
theorem suffix_key_ignores_first_segment (s1 s2 R : List Char)
    (h1 : '/' ∉ s1) (h2 : '/' ∉ s2)
    (hR : 2 ≤ (splitCh '/' R).length) :
    SuffixPolicy.generateS3Key ('/' :: (s1 ++ '/' :: R)) =
      SuffixPolicy.generateS3Key ('/' :: (s2 ++ '/' :: R)) := by
  have key_eq : ∀ s : List Char, '/' ∉ s →
      SuffixPolicy.generateS3Key ('/' :: (s ++ '/' :: R)) =
        hexEncode (md5Sum (utf8Bytes (joinCh '/' (splitCh '/' R)))) := by
    intro s hs
    unfold SuffixPolicy.generateS3Key
    have ht : trimLeadSlash ('/' :: (s ++ '/' :: R)) = s ++ '/' :: R := rfl
    rw [ht, splitCh_append_sep '/' s R hs]
    have hlen : ¬ (s :: splitCh '/' R).length < 3 := by
      simp only [List.length_cons]
      omega
    rw [if_neg hlen]
    rfl
  rw [key_eq s1 h1, key_eq s2 h2]

theorem suffix_key_ignores_first_segment_witness :
    SuffixPolicy.generateS3Key ('/' :: ("a".data ++ '/' :: "x/y".data)) =
      SuffixPolicy.generateS3Key ('/' :: ("b".data ++ '/' :: "x/y".data)) :=
  suffix_key_ignores_first_segment "a".data "b".data "x/y".data
    (by decide) (by decide) (by decide)

/-- C8: a failed object-store put is invisible to the client.  The
client-facing result of the per-response pipeline is the same under any
two store outcomes; under a failing store the client still receives the
full 200 body, and the detached upload task's entire output is one put
attempt (no retry) followed by one `"S3 upload failed"` log line — its
result is never joined into the response.  In the tee variant, an upload
action never changes the backend stream, the client bytes, or the
client-side end-of-stream flag. -/
theorem upload_failure_isolated (resp : Response) (bytes : List Nat)
    (path bucket e : List Char) (putErr1 putErr2 : Option (List Char))
    (h200 : resp.status = 200) (hbody : resp.body = .ok bytes)
    (hkey : ¬ (splitCh '/' (trimLeadSlash path)).length < 3) :
    (SuffixPolicy.handleResponse putErr1 bucket resp path).1 =
      (SuffixPolicy.handleResponse putErr2 bucket resp path).1 ∧
    (SuffixPolicy.handleResponse (some e) bucket resp path).1 =
      .ok ({resp with body := .ok bytes}, [(bytes, path)]) ∧
    (SuffixPolicy.handleResponse (some e) bucket resp path).2 =
      [([⟨bucket, SuffixPolicy.generateS3Key path, bytes⟩],
        ["S3 upload failed".data])] ∧
    (∀ s : TeeState, (teeStep s .uploadRead).src = s.src ∧
      (teeStep s .uploadRead).client = s.client ∧
      (teeStep s .uploadRead).clientDone = s.clientDone) := by
  have hm : SuffixPolicy.modifyResponse resp path =
      .ok ({resp with body := .ok bytes}, [(bytes, path)]) := by
    simp [SuffixPolicy.modifyResponse, h200, hbody]
  have hkne : SuffixPolicy.generateS3Key path ≠ [] := by
    unfold SuffixPolicy.generateS3Key
    rw [if_neg hkey]
    exact md5_hex_ne_nil _
  refine ⟨?_, ?_, ?_, ?_⟩
  · simp [SuffixPolicy.handleResponse, hm]
  · simp [SuffixPolicy.handleResponse, hm]
  · simp [SuffixPolicy.handleResponse, hm, SuffixPolicy.uploadGoroutine,
      SuffixPolicy.uploadToS3, hkne]
  · intro s
    by_cases hd : s.uploadDone
    · simp [teeStep, hd]
    · cases hb : s.buf with
      | nil => simp [teeStep, hd, hb]
      | cons b rest => simp [teeStep, hd, hb]

theorem upload_failure_isolated_witness :
    (SuffixPolicy.handleResponse none "b".data ⟨200, [], .ok [5]⟩
        "/a/b/c".data).1 =
      (SuffixPolicy.handleResponse (some "x".data) "b".data ⟨200, [], .ok [5]⟩
        "/a/b/c".data).1 ∧
    (SuffixPolicy.handleResponse (some "boom".data) "b".data ⟨200, [], .ok [5]⟩
        "/a/b/c".data).1 =
      .ok (⟨200, [], .ok [5]⟩, [([5], "/a/b/c".data)]) ∧
    (SuffixPolicy.handleResponse (some "boom".data) "b".data ⟨200, [], .ok [5]⟩
        "/a/b/c".data).2 =
      [([⟨"b".data, SuffixPolicy.generateS3Key "/a/b/c".data, [5]⟩],
        ["S3 upload failed".data])] ∧
    (∀ s : TeeState, (teeStep s .uploadRead).src = s.src ∧
      (teeStep s .uploadRead).client = s.client ∧
      (teeStep s .uploadRead).clientDone = s.clientDone) :=
  upload_failure_isolated ⟨200, [], .ok [5]⟩ [5] "/a/b/c".data "b".data
    "boom".data none (some "x".data) (by decide) (by decide) (by decide)

/-- C9: startup gating.  The readiness poll targets
`<target>/health`; polls run every 500ms from time 0, so a window of
`timeoutMs` admits `⌈timeoutMs/500⌉` polls.  `waitForHealth` succeeds
exactly when some poll in the window returns status 200; otherwise it
returns the `health check failed` error (its only two outcomes), and
`main` then exits with the non-zero status 1 instead of serving. -/
theorem waitForHealth_gate (polls : Nat → Option Nat) (timeoutMs : Nat)
    (target : List Char) :
    healthURL target = target ++ "/health".data ∧
    (waitForHealth polls timeoutMs = .ok () ↔
      ∃ i < numPolls timeoutMs, polls i = some 200) ∧
    (waitForHealth polls timeoutMs = .ok () ∨
      waitForHealth polls timeoutMs = .error "health check failed".data) ∧
    (mainStartup polls timeoutMs = .error 1 ↔
      ¬ ∃ i < numPolls timeoutMs, polls i = some 200) := by
  have hiff : waitForHealth polls timeoutMs = .ok () ↔
      ∃ i < numPolls timeoutMs, polls i = some 200 := by
    unfold waitForHealth
    rw [healthLoop_ok_iff polls (numPolls timeoutMs) 0]
    constructor
    · rintro ⟨k, hk, hp⟩
      exact ⟨k, hk, by simpa using hp⟩
    · rintro ⟨i, hi, hp⟩
      exact ⟨i, hi, by simpa using hp⟩
  have hshape := healthLoop_ok_or_error polls (numPolls timeoutMs) 0
  refine ⟨rfl, hiff, hshape, ?_⟩
  rcases hshape with hok | herr
  · rw [show (waitForHealth polls timeoutMs = Except.ok ()) =
      (healthLoop polls 0 (numPolls timeoutMs) = Except.ok ()) from rfl] at hiff
    constructor
    · intro hm
      exfalso
      unfold mainStartup waitForHealth at hm
      rw [hok] at hm
      exact absurd hm (by simp)
    · intro hne
      exact absurd (hiff.mp hok) hne
  · constructor
    · intro _ hex
      have := hiff.mpr hex
      unfold waitForHealth at this
      rw [herr] at this
      exact absurd this (by simp)
    · intro _
      unfold mainStartup waitForHealth
      rw [herr]

/-- C10: in the buffer-then-serve variant, a failing body read on a
status-200 response makes the interception hook return that error to the
proxy — the client does not receive the 200 response — and no upload
goroutine is spawned, so the object store sees no put. -/
theorem body_read_error_aborts (resp : Response) (path bucket : List Char)
    (e : List Char) (putErr : Option (List Char))
    (h200 : resp.status = 200) (hbody : resp.body = .error e) :
    SuffixPolicy.modifyResponse resp path = .error e ∧
    SuffixPolicy.handleResponse putErr bucket resp path = (.error e, []) := by
  have hm : SuffixPolicy.modifyResponse resp path = .error e := by
    simp [SuffixPolicy.modifyResponse, h200, hbody]
  exact ⟨hm, by simp [SuffixPolicy.handleResponse, hm]⟩

theorem body_read_error_aborts_witness :
    SuffixPolicy.modifyResponse ⟨200, [], .error "read reset".data⟩
      "/a/b/c".data = .error "read reset".data ∧
    SuffixPolicy.handleResponse none "b".data
      ⟨200, [], .error "read reset".data⟩ "/a/b/c".data =
        (.error "read reset".data, []) :=
  body_read_error_aborts ⟨200, [], .error "read reset".data⟩ "/a/b/c".data
    "b".data "read reset".data none (by decide) (by decide)
